import Mathlib

/-!
Shallow embedding of the ClickAccuracy run-validation and scoring pipeline.

Numeric game data is modelled over `ℚ` (all validator arithmetic in the
source is exact rational arithmetic on JS numbers); the speed score uses
`ℝ` because its formula involves `Math.exp`.  JS `Math.round` rounds half
away from zero towards positive infinity, which is exactly Mathlib's
`round` (`round x = ⌊x + 1/2⌋`).
-/

namespace ClickAccuracy

/-- Mirrors the `{valid, error?}` result shape of `src/lib/validation`. -/
inductive ValidationResult
  | valid
  | invalid (error : String)
deriving DecidableEq

/-- A JavaScript primitive value as it can appear in a raw click-log field:
`validateClickLog` receives untyped JSON, so a field may hold a number, a
boolean, or be absent (`undefined`). -/
inductive JSVal
  | num (q : ℚ)
  | bool (b : Bool)
  | undef
deriving DecidableEq

/-- `typeof v === number || typeof v === boolean`, the per-field type check
of `validateClickLog`. -/
def JSVal.isNumberOrBoolean : JSVal → Bool
  | .num _ => true
  | .bool _ => true
  | .undef => false

/-- JS numeric coercion as applied by comparison operators: `true` is 1,
`false` is 0.  (`undefined` would be NaN; it is unreachable after the type
check, and we map it to 0.) -/
def JSVal.toNumber : JSVal → ℚ
  | .num q => q
  | .bool b => if b then 1 else 0
  | .undef => 0

/-- A raw (untyped) click-log object with the eight required fields of
`validateClickLog`. -/
structure RawClickLog where
  t : JSVal
  cx : JSVal
  cy : JSVal
  tx : JSVal
  ty : JSVal
  r : JSVal
  d : JSVal
  hit : JSVal
deriving DecidableEq

/-- `validateClickLog` from `src/lib/validation.ts`: the per-field
`typeof` loop (accepting number or boolean), then the range checks. -/
def validateClickLog (log : RawClickLog) : ValidationResult :=
  if ¬ log.t.isNumberOrBoolean then .invalid ("Click log missing or invalid field: t")
  else if ¬ log.cx.isNumberOrBoolean then .invalid ("Click log missing or invalid field: cx")
  else if ¬ log.cy.isNumberOrBoolean then .invalid ("Click log missing or invalid field: cy")
  else if ¬ log.tx.isNumberOrBoolean then .invalid ("Click log missing or invalid field: tx")
  else if ¬ log.ty.isNumberOrBoolean then .invalid ("Click log missing or invalid field: ty")
  else if ¬ log.r.isNumberOrBoolean then .invalid ("Click log missing or invalid field: r")
  else if ¬ log.d.isNumberOrBoolean then .invalid ("Click log missing or invalid field: d")
  else if ¬ log.hit.isNumberOrBoolean then .invalid ("Click log missing or invalid field: hit")
  else if log.t.toNumber < 0 ∨ log.t.toNumber > 600000 then
    .invalid ("Invalid timestamp in click log")
  else if log.cx.toNumber < 0 ∨ log.cx.toNumber > 1000 ∨
      log.cy.toNumber < 0 ∨ log.cy.toNumber > 1000 then
    .invalid ("Invalid click coordinates")
  else if log.tx.toNumber < 0 ∨ log.tx.toNumber > 1000 ∨
      log.ty.toNumber < 0 ∨ log.ty.toNumber > 1000 then
    .invalid ("Invalid target coordinates")
  else if log.r.toNumber ≤ 0 ∨ log.r.toNumber > 200 then
    .invalid ("Invalid target radius")
  else if log.d.toNumber < 0 ∨ log.d.toNumber > 1000 then
    .invalid ("Invalid distance")
  else .valid

/-- A well-typed click record (fields as in `ClickLog` of
`src/types/database.ts`; the unused display fields `w`, `s` are omitted). -/
structure ClickLog where
  t : ℚ
  cx : ℚ
  cy : ℚ
  tx : ℚ
  ty : ℚ
  r : ℚ
  d : ℚ
  hit : Bool
  a : Option ℚ := none
deriving DecidableEq

/-- Inject a typed click record into the raw JSON shape the validator sees. -/
def ClickLog.toRaw (l : ClickLog) : RawClickLog :=
  ⟨.num l.t, .num l.cx, .num l.cy, .num l.tx, .num l.ty, .num l.r, .num l.d, .bool l.hit⟩

/-- The client-submitted run summary (`stats` of the submit request). -/
structure GameStats where
  totalHits : ℚ
  avgAccuracy : ℚ
  bestAccuracy : ℚ
  finalRadius : ℚ
  durationMs : ℚ
deriving DecidableEq

/-- `validateGameStats` from `src/lib/validation.ts` (the `typeof` field
checks hold by typing): range checks, then the sub-100ms-per-hit
plausibility check. -/
def validateGameStats (stats : GameStats) : ValidationResult :=
  if stats.totalHits < 0 ∨ stats.totalHits > 1000 then .invalid ("Invalid total hits count")
  else if stats.avgAccuracy < 0 ∨ stats.avgAccuracy > 1 then .invalid ("Invalid average accuracy")
  else if stats.bestAccuracy < 0 ∨ stats.bestAccuracy > 1 then .invalid ("Invalid best accuracy")
  else if stats.finalRadius < 1 ∨ stats.finalRadius > 200 then .invalid ("Invalid final radius")
  else if stats.durationMs < 0 ∨ stats.durationMs > 3600000 then .invalid ("Invalid duration")
  else if stats.totalHits > 0 ∧ stats.durationMs / stats.totalHits < 100 then
    .invalid ("Game completed too quickly to be human")
  else .valid

/-- `clickLogs.filter(log => log.hit)`. -/
def hitLogs (logs : List ClickLog) : List ClickLog := logs.filter (fun l => l.hit)

/-- `clickLogs.filter(log => !log.hit)`. -/
def missLogs (logs : List ClickLog) : List ClickLog := logs.filter (fun l => !l.hit)

/-- `log.a || 0`: a missing accuracy counts as 0 (and `0 || 0` is 0). -/
def logAccuracy (l : ClickLog) : ℚ := l.a.getD 0

/-- `Math.max(...clickLogs.map(log => log.t))` for a non-empty log list. -/
def maxElapsed : List ClickLog → ℚ
  | [] => 0
  | l :: ls => ls.foldl (fun m x => max m x.t) l.t

/-- Mean of `log.a || 0` over the hit records, as recomputed by the
consistency validator. -/
def meanHitAccuracy (logs : List ClickLog) : ℚ :=
  ((hitLogs logs).map logAccuracy).sum / ((hitLogs logs).length : ℚ)

/-- `validateGameConsistency` from `src/lib/validation.ts` (the
`Array.isArray` guard holds by typing). -/
def validateGameConsistency (stats : GameStats) (clickLogs : List ClickLog) :
    ValidationResult :=
  if ((hitLogs clickLogs).length : ℚ) ≠ stats.totalHits then
    .invalid ("Hit count mismatch between stats and logs")
  else if (missLogs clickLogs).length > 1 then
    .invalid ("Too many misses in click logs")
  else if clickLogs.length > 0 ∧ |maxElapsed clickLogs - stats.durationMs| > 5000 then
    .invalid ("Duration mismatch between stats and logs")
  else if (hitLogs clickLogs).length > 0 ∧
      |meanHitAccuracy clickLogs - stats.avgAccuracy| > 0.05 then
    .invalid ("Average accuracy mismatch")
  else .valid

/-- The fixed badge whitelist of `validateBadges`. -/
def validBadges : List String :=
  ["sharpshooter", "circus_shot", "speed_demon", "perfectionist",
   "marathon_runner", "consistency", "bullseye_master", "steady_hands"]

/-- `validateBadges` from `src/lib/validation.ts` (entries are typed as
strings): reject the first non-whitelisted badge, then the max-count 10. -/
def validateBadges (badges : List String) : ValidationResult :=
  match badges.find? (fun b => !(validBadges.contains b)) with
  | some b => .invalid ("Invalid badge: " ++ b)
  | none => if badges.length > 10 then .invalid ("Too many badges") else .valid

/-- Characters allowed by the username regex
`[a-zA-Z0-9\s\-_.!]` (with `\s` modelled by the common ASCII whitespace). -/
def isUsernameChar (c : Char) : Bool :=
  c.isAlpha || c.isDigit || c == ' ' || c == '\t' || c == '\n' || c == '\r' ||
    c == '-' || c == '_' || c == '.' || c == '!'

/-- `validateUsername` from `src/lib/validation.ts`; a missing or empty
username is falsy in JS and accepted. -/
def validateUsername : Option String → ValidationResult
  | none => .valid
  | some s =>
    if s = "" then .valid
    else if s.length > 20 then .invalid ("Username must be 20 characters or less")
    else if ¬ (s.toList.all isUsernameChar) then
      .invalid ("Username contains invalid characters")
    else .valid

/-- JS `s || null`: the empty string collapses to null. -/
def jsStringOrNull : Option String → Option String
  | none => none
  | some s => if s = "" then none else some s

/-- `accuracyUnweighted(d, r)` from the core game logic
(`public/js/game-logic.js`): 1.0 inside the bullseye zone
(`bullseyeRadius = r * 0.05`), else `max(0, 1 - d / r)`. -/
def accuracyUnweighted (d r : ℚ) : ℚ :=
  if d ≤ r * 0.05 then 1 else max 0 (1 - d / r)

/-- The five documented range constraints of `validateGameStats`. -/
def statsInRange (s : GameStats) : Prop :=
  0 ≤ s.totalHits ∧ s.totalHits ≤ 1000 ∧
  0 ≤ s.avgAccuracy ∧ s.avgAccuracy ≤ 1 ∧
  0 ≤ s.bestAccuracy ∧ s.bestAccuracy ≤ 1 ∧
  1 ≤ s.finalRadius ∧ s.finalRadius ≤ 200 ∧
  0 ≤ s.durationMs ∧ s.durationMs ≤ 3600000

/-- Consistency relation 1: the hit-record count equals `totalHits`. -/
def hitCountOk (stats : GameStats) (logs : List ClickLog) : Prop :=
  ((hitLogs logs).length : ℚ) = stats.totalHits

/-- Consistency relation 2: at most one miss record. -/
def missCountOk (logs : List ClickLog) : Prop := (missLogs logs).length ≤ 1

/-- Consistency relation 3: when the log is non-empty, the maximum
`elapsedMs` is within 5000 ms of `durationMs`. -/
def durationOk (stats : GameStats) (logs : List ClickLog) : Prop :=
  logs.length > 0 → |maxElapsed logs - stats.durationMs| ≤ 5000

/-- Consistency relation 4: when there is at least one hit, the
recomputed mean accuracy is within 0.05 of the claimed `avgAccuracy`. -/
def accuracyOk (stats : GameStats) (logs : List ClickLog) : Prop :=
  (hitLogs logs).length > 0 → |meanHitAccuracy logs - stats.avgAccuracy| ≤ 0.05

/-- `Math.round(x * 10) / 10`, rounding a score to one decimal place. -/
noncomputable def roundTo1 (x : ℝ) : ℝ := ((round (x * 10) : ℤ) : ℝ) / 10

/-- The body of `calculateSpeedScore` after `avgTimePerHit` has been
computed (`src/utils/scoring.ts`): the 0.1s ceiling, else exponential
decay rounded to one decimal and floored at 0. -/
noncomputable def speedScoreOfAvg (avgTimePerHit : ℝ) : ℝ :=
  if avgTimePerHit ≤ 0.1 then 100
  else max 0 (roundTo1 (100 * Real.exp (-(avgTimePerHit / 3.5))))

/-- `calculateSpeedScore(totalDurationMs, totalHits)` from
`src/utils/scoring.ts`. -/
noncomputable def calculateSpeedScore (totalDurationMs totalHits : ℚ) : ℝ :=
  if totalHits = 0 then 0
  else speedScoreOfAvg ((totalDurationMs : ℝ) / (totalHits : ℝ) / 1000)

/-- `calculatePerformanceScore(averageAccuracy, totalHits)` from
`src/utils/scoring.ts`. -/
def calculatePerformanceScore (averageAccuracy totalHits : ℚ) : ℚ :=
  if totalHits = 0 then 0
  else ((round (averageAccuracy * min 1 (totalHits / 20) * 100 * 10) : ℤ) : ℚ) / 10

/-- `getAverageTimePerHit` from `pages/api/runs.ts`. -/
def getAverageTimePerHit (durationMs totalHits : ℚ) : ℚ :=
  if totalHits = 0 then 0 else ((round (durationMs / totalHits) : ℤ) : ℚ)

/-- The `GameStats` shape consumed by the badge criteria of
`src/utils/scoring.ts` (summary fields, derived scores, click logs). -/
structure BadgeStats where
  totalHits : ℚ
  avgAccuracy : ℚ
  bestAccuracy : ℚ
  finalRadius : ℚ
  durationMs : ℚ
  speedScore : ℝ
  performanceScore : ℚ
  clickLogs : List ClickLog

/-- The badge predicates of the `BADGES` table in `src/utils/scoring.ts`,
keyed by badge id. -/
def badgeCriterion (s : BadgeStats) (b : String) : Prop :=
  if b = "sharpshooter" then s.avgAccuracy > 0.9
  else if b = "circus_shot" then s.bestAccuracy ≥ 0.99
  else if b = "speed_demon" then s.speedScore > 85
  else if b = "perfectionist" then s.performanceScore > 90
  else if b = "marathon_runner" then s.totalHits ≥ 25
  else if b = "consistency" then
    (hitLogs s.clickLogs).length > 5 ∧
      ∀ l ∈ hitLogs s.clickLogs, ∃ q, l.a = some q ∧ q ≥ 0.8
  else if b = "bullseye_master" then
    (s.clickLogs.filter (fun l => l.hit && l.a == some 1)).length ≥ 5
  else if b = "steady_hands" then
    (hitLogs s.clickLogs).length ≥ 15 ∧ (missLogs s.clickLogs).length = 0
  else False

/-- The set of badge ids whose criteria hold — the badge set
`determineBadges` (`src/utils/scoring.ts`) computes from the run record. -/
def determineBadgesSet (s : BadgeStats) : Set String :=
  {b | b ∈ validBadges ∧ badgeCriterion s b}

/-- The `BadgeStats` a run submission induces: summary fields as
submitted, derived scores recomputed, plus the click logs
(cf. `calculateGameStatistics` in `src/utils/scoring.ts`). -/
noncomputable def runBadgeStats (stats : GameStats) (logs : List ClickLog) : BadgeStats :=
  { totalHits := stats.totalHits
    avgAccuracy := stats.avgAccuracy
    bestAccuracy := stats.bestAccuracy
    finalRadius := stats.finalRadius
    durationMs := stats.durationMs
    speedScore := calculateSpeedScore stats.durationMs stats.totalHits
    performanceScore := calculatePerformanceScore stats.avgAccuracy stats.totalHits
    clickLogs := logs }

/-- The row inserted into the `runs` table (`RunRecord` of
`src/types/database.ts`, without `id`/`created_at`). -/
structure RunRecord where
  username : Option String
  speed_score : ℝ
  performance_score : ℚ
  total_hits : ℚ
  avg_accuracy : ℚ
  best_accuracy : ℚ
  final_radius : ℚ
  duration_ms : ℚ
  avg_time_per_hit_ms : ℚ
  click_logs : List ClickLog
  badges : List String
  is_ai : Bool
  ai_model : Option String
  ip_hash : Option String
  user_agent : Option String

/-- First failing `validateClickLog` over the submitted logs, with the
handler's `Invalid click log: ` prefix. -/
def firstClickLogError : List ClickLog → Option String
  | [] => none
  | l :: ls =>
    match validateClickLog l.toRaw with
    | .invalid e => some ("Invalid click log: " ++ e)
    | .valid => firstClickLogError ls

/-- The POST `/api/runs` handler body (`pages/api/runs.ts`, lines 59-139):
the validation stages in source order, then the `runRecord` object that is
persisted.  Returns the stored record on acceptance and the rejection
message otherwise. -/
noncomputable def submitRun (username : Option String) (stats : GameStats)
    (click_logs : List ClickLog) (badges : Option (List String))
    (ipHash userAgent : String) : Except String RunRecord :=
  match validateUsername username with
  | .invalid e => .error e
  | .valid =>
    match validateGameStats stats with
    | .invalid e => .error e
    | .valid =>
      match firstClickLogError click_logs with
      | some e => .error e
      | none =>
        match validateGameConsistency stats click_logs with
        | .invalid e => .error e
        | .valid =>
          match (match badges with
                 | none => ValidationResult.valid
                 | some bs => validateBadges bs) with
          | .invalid e => .error e
          | .valid =>
            .ok { username := jsStringOrNull username
                  speed_score := calculateSpeedScore stats.durationMs stats.totalHits
                  performance_score :=
                    calculatePerformanceScore stats.avgAccuracy stats.totalHits
                  total_hits := stats.totalHits
                  avg_accuracy := stats.avgAccuracy
                  best_accuracy := stats.bestAccuracy
                  final_radius := stats.finalRadius
                  duration_ms := stats.durationMs
                  avg_time_per_hit_ms :=
                    getAverageTimePerHit stats.durationMs stats.totalHits
                  click_logs := click_logs
                  badges := badges.getD []
                  is_ai := false
                  ai_model := none
                  ip_hash := some ipHash
                  user_agent := some userAgent }

/-- A persisted row of the `runs` table. -/
structure StoredRun where
  id : ℤ
  run : RunRecord
  created_at : ℚ

/-- The two leaderboard metrics. -/
inductive Metric
  | speed
  | performance

/-- The score column selected by a metric. -/
noncomputable def metricScore : Metric → StoredRun → ℝ
  | .speed, r => r.run.speed_score
  | .performance, r => (r.run.performance_score : ℝ)

open Classical in
/-- `calculatePercentile` from `src/lib/database.ts`: 100 when there are
no human rows, else `Math.round(lowerCount / totalCount * 100)` over the
human (non-AI) rows. -/
noncomputable def calculatePercentile (store : List StoredRun) (score : ℝ)
    (metric : Metric) : ℤ :=
  let humans := store.filter (fun r => !r.run.is_ai)
  if humans.length = 0 then 100
  else
    round ((((humans.filter (fun r => decide (metricScore metric r < score))).length : ℚ) /
      (humans.length : ℚ)) * 100)

/-- The submit response fields the claims are about. -/
structure SubmitResponse where
  id : ℤ
  speedScore : ℝ
  performanceScore : ℚ
  speedPercentile : ℤ
  performancePercentile : ℤ

/-- The accepted-submission flow of `pages/api/runs.ts`: validate and
build the record (`submitRun`), insert it into the store, and only then
compute the percentiles (lines 141-153 run after `insertRun`). -/
noncomputable def submitFlow (store : List StoredRun) (newId : ℤ) (now : ℚ)
    (username : Option String) (stats : GameStats) (click_logs : List ClickLog)
    (badges : Option (List String)) (ipHash userAgent : String) :
    Except String (SubmitResponse × List StoredRun) :=
  match submitRun username stats click_logs badges ipHash userAgent with
  | .error e => .error e
  | .ok record =>
    let store' := store ++ [⟨newId, record, now⟩]
    .ok ({ id := newId
           speedScore := record.speed_score
           performanceScore := record.performance_score
           speedPercentile := calculatePercentile store' record.speed_score .speed
           performancePercentile :=
             calculatePercentile store' (record.performance_score : ℝ) .performance },
         store')

/-- Normalisation of one model-name character after lowercasing:
the regex `[^a-z0-9]` replaced by an underscore. -/
def normalizeChar (c : Char) : Char :=
  if ('a' ≤ c ∧ c ≤ 'z') ∨ ('0' ≤ c ∧ c ≤ '9') then c else '_'

/-- `ai_model.toLowerCase().replace(/[^a-z0-9]/g, _)` from
`getAIComparisons` in `src/lib/database.ts`. -/
def normalizeModelKey (s : String) : String :=
  String.mk (s.toList.map (fun c => normalizeChar c.toLower))

/-- Modelled from the spec: the key derivation as the claim states it —
lowercase the model name, then REMOVE (strip) its non-alphanumeric
characters.  Used only to compare the claim against the source. -/
def claimStripKey (s : String) : String :=
  String.mk ((s.toList.map Char.toLower).filter
    (fun c => ('a' ≤ c ∧ c ≤ 'z') ∨ ('0' ≤ c ∧ c ≤ '9')))

/-- The comparison key of one AI row (its `ai_model` is non-null by the
SQL filter; `getD` is a harmless total reading). -/
def aiRowKey (r : StoredRun) : String := normalizeModelKey (r.run.ai_model.getD "")

/-- The deltas stored for one AI row:
`Math.round(speedScore - ai.speed_score)` and
`Math.round(performanceScore - ai.performance_score)`. -/
noncomputable def aiDeltas (speedScore : ℝ) (performanceScore : ℚ) (r : StoredRun) :
    ℤ × ℤ :=
  (round (speedScore - r.run.speed_score),
   round (performanceScore - r.run.performance_score))

/-- The rows selected by
`SELECT ... FROM runs WHERE is_ai = true AND ai_model IS NOT NULL`. -/
def aiRows (store : List StoredRun) : List StoredRun :=
  store.filter (fun r => r.run.is_ai && r.run.ai_model.isSome)

/-- `getAIComparisons` from `src/lib/database.ts`: over the rows with
`is_ai = true` and a non-null `ai_model`, build the keyed record of
deltas; a later row with the same key overwrites an earlier one, as JS
object assignment does. -/
noncomputable def getAIComparisons (store : List StoredRun) (speedScore : ℝ)
    (performanceScore : ℚ) : String → Option (ℤ × ℤ) :=
  (aiRows store).foldl
    (fun acc r k => if k = aiRowKey r then some (aiDeltas speedScore performanceScore r)
      else acc k)
    (fun _ => none)

/-- Outcome of the PATCH `/api/runs/[id]/username` handler. -/
inductive PatchOutcome
  | success (runId : ℤ) (username previous : Option String)
  | failure (error : String)

/-- The PATCH `/api/runs/[id]/username` handler body
(`pages/api/runs/[id]/username.ts`, lines 45-94) on a parsed run id:
username validation, row lookup, the 24-hour window on `created_at`
(times in epoch milliseconds), then the `UPDATE ... SET username` of the
matching row only.  Returns the outcome and the store after the request. -/
def patchUsername (store : List StoredRun) (runId : ℤ) (username : Option String)
    (now : ℚ) : PatchOutcome × List StoredRun :=
  match validateUsername username with
  | .invalid e => (.failure e, store)
  | .valid =>
    match store.find? (fun r => r.id == runId) with
    | none => (.failure ("Run not found"), store)
    | some row =>
      if (now - row.created_at) / (1000 * 60 * 60) > 24 then
        (.failure ("Run is too old to update username"), store)
      else
        (.success runId (jsStringOrNull username) row.run.username,
         store.map (fun r => if r.id = runId then
           { r with run := { r.run with username := jsStringOrNull username } } else r))

/-- A raw click-log object every one of whose eight required fields holds
the boolean `true` instead of a number. -/
def allBoolClickLog : RawClickLog :=
  ⟨.bool true, .bool true, .bool true, .bool true,
   .bool true, .bool true, .bool true, .bool true⟩

/-- A concrete hit record at time `t` with accuracy `a` (the end-to-end
scenario of the spec's testable properties). -/
def demoHit (t a : ℚ) : ClickLog :=
  { t := t, cx := 100, cy := 100, tx := 102, ty := 98, r := 20, d := 2.83,
    hit := true, a := some a }

/-- The end-to-end scenario click log: two hits at 1000 ms and 2000 ms
with accuracies 0.86 and 0.84. -/
def demoLogs : List ClickLog := [demoHit 1000 0.86, demoHit 2000 0.84]

/-- The end-to-end scenario summary:
`{totalHits: 2, avgAccuracy: 0.85, bestAccuracy: 0.95, finalRadius: 18, durationMs: 2000}`. -/
def demoStats : GameStats := ⟨2, 0.85, 0.95, 18, 2000⟩

/-- The record the handler persists for the end-to-end scenario submitted
with username `tester` and client badges `[sharpshooter]`. -/
noncomputable def demoRecord : RunRecord :=
  { username := some "tester"
    speed_score := calculateSpeedScore 2000 2
    performance_score := calculatePerformanceScore 0.85 2
    total_hits := 2
    avg_accuracy := 0.85
    best_accuracy := 0.95
    final_radius := 18
    duration_ms := 2000
    avg_time_per_hit_ms := getAverageTimePerHit 2000 2
    click_logs := demoLogs
    badges := ["sharpshooter"]
    is_ai := false
    ai_model := none
    ip_hash := some "ip"
    user_agent := some "ua" }

/-- A stored AI benchmark row whose model name is the free text `GPT-4`
and whose scores are zero. -/
def gptRecord : RunRecord :=
  { username := none
    speed_score := 0
    performance_score := 0
    total_hits := 10
    avg_accuracy := 0.5
    best_accuracy := 0.5
    final_radius := 50
    duration_ms := 10000
    avg_time_per_hit_ms := 1000
    click_logs := []
    badges := []
    is_ai := true
    ai_model := some "GPT-4"
    ip_hash := none
    user_agent := none }

/-- A store holding the single AI benchmark row. -/
def aiStore : List StoredRun := [⟨7, gptRecord, 0⟩]

/-- A store holding two runs for the username-patch scenarios: the human
run (id 1) and the AI row (id 2), both created at epoch millisecond 0. -/
noncomputable def patchStore : List StoredRun := [⟨1, demoRecord, 0⟩, ⟨2, gptRecord, 0⟩]

/-- C5: for every hit (0 ≤ d ≤ r, r > 0) the accuracy function returns
exactly 1.0 when d is within the 5% bullseye sub-radius and
max(0, 1 - d/r) otherwise, and the result always lies in [0, 1]. -/
theorem accuracy_bullseye_linear_and_bounded (d r : ℚ)
    (h0 : 0 ≤ d) (_hdr : d ≤ r) (hr : 0 < r) :
    (d ≤ 0.05 * r → accuracyUnweighted d r = 1) ∧
    (¬ d ≤ 0.05 * r → accuracyUnweighted d r = max 0 (1 - d / r)) ∧
    0 ≤ accuracyUnweighted d r ∧ accuracyUnweighted d r ≤ 1 := by
  have hq : 0 ≤ d / r := div_nonneg h0 hr.le
  refine ⟨?_, ?_, ?_, ?_⟩
  · intro h
    rw [accuracyUnweighted, if_pos (by linarith)]
  · intro h
    rw [accuracyUnweighted, if_neg (by intro hc; exact h (by linarith))]
  · rw [accuracyUnweighted]
    split
    · norm_num
    · exact le_max_left 0 _
  · rw [accuracyUnweighted]
    split
    · norm_num
    · exact max_le (by norm_num) (by linarith)

/-- Witness for C5 at d = 1, r = 10: outside the bullseye the accuracy is
the linear decay value. -/
theorem accuracy_bullseye_linear_and_bounded_witness :
    accuracyUnweighted 1 10 = max 0 (1 - 1 / 10) :=
  (accuracy_bullseye_linear_and_bounded 1 10 (by norm_num) (by norm_num)
    (by norm_num)).2.1 (by norm_num)

/-- C4: the performance score is 0 for totalHits = 0 and otherwise
avgAccuracy · min(1, totalHits/20) · 100 rounded to one decimal, with the
claimed concrete values and multiplier saturation at 20 hits. -/
theorem performance_score_characterization :
    (∀ a : ℚ, calculatePerformanceScore a 0 = 0) ∧
    (∀ a h : ℚ, h ≠ 0 → calculatePerformanceScore a h =
      ((round (a * min 1 (h / 20) * 100 * 10) : ℤ) : ℚ) / 10) ∧
    calculatePerformanceScore 0.8 5 = 20 ∧
    calculatePerformanceScore 0.8 10 = 40 ∧
    calculatePerformanceScore 0.8 20 = 80 ∧
    calculatePerformanceScore 0.9 20 = 90 ∧
    calculatePerformanceScore 0.9 40 = 90 := by
  refine ⟨fun a => by rw [calculatePerformanceScore, if_pos rfl],
    fun a h hh => by rw [calculatePerformanceScore, if_neg hh],
    ?_, ?_, ?_, ?_, ?_⟩ <;>
  · rw [calculatePerformanceScore]
    norm_num [round_eq]

/-- Witness for C4 at avgAccuracy = 0.8, totalHits = 5. -/
theorem performance_score_characterization_witness :
    calculatePerformanceScore 0.8 5 =
      ((round ((0.8 : ℚ) * min 1 (5 / 20) * 100 * 10) : ℤ) : ℚ) / 10 :=
  performance_score_characterization.2.1 0.8 5 (by norm_num)

/-- C6: in-range stats with totalHits > 0 and durationMs/totalHits < 100
are rejected as non-human with the exact documented message; with
durationMs/totalHits ≥ 100 they pass; the concrete scenario
durationMs = 500, totalHits = 10 is rejected with that message. -/
theorem stats_too_quick_rejection :
    (∀ s : GameStats, statsInRange s → 0 < s.totalHits →
      s.durationMs / s.totalHits < 100 →
      validateGameStats s = .invalid ("Game completed too quickly to be human")) ∧
    (∀ s : GameStats, statsInRange s → 0 < s.totalHits →
      100 ≤ s.durationMs / s.totalHits →
      validateGameStats s = .valid) ∧
    validateGameStats ⟨10, 0.85, 0.95, 15, 500⟩ =
      .invalid ("Game completed too quickly to be human") := by
  refine ⟨?_, ?_, by norm_num [validateGameStats]⟩
  · rintro s ⟨r1, r2, r3, r4, r5, r6, r7, r8, r9, r10⟩ hpos hq
    rw [validateGameStats,
      if_neg (by push_neg; exact ⟨by linarith, by linarith⟩),
      if_neg (by push_neg; exact ⟨by linarith, by linarith⟩),
      if_neg (by push_neg; exact ⟨by linarith, by linarith⟩),
      if_neg (by push_neg; exact ⟨by linarith, by linarith⟩),
      if_neg (by push_neg; exact ⟨by linarith, by linarith⟩),
      if_pos ⟨hpos, hq⟩]
  · rintro s ⟨r1, r2, r3, r4, r5, r6, r7, r8, r9, r10⟩ hpos hq
    rw [validateGameStats,
      if_neg (by push_neg; exact ⟨by linarith, by linarith⟩),
      if_neg (by push_neg; exact ⟨by linarith, by linarith⟩),
      if_neg (by push_neg; exact ⟨by linarith, by linarith⟩),
      if_neg (by push_neg; exact ⟨by linarith, by linarith⟩),
      if_neg (by push_neg; exact ⟨by linarith, by linarith⟩),
      if_neg (by intro hc; exact absurd hq (by push_neg; exact hc.2))]

/-- Witness for C6 at the documented scenario durationMs = 500,
totalHits = 10. -/
theorem stats_too_quick_rejection_witness :
    validateGameStats ⟨10, 0.85, 0.95, 15, 500⟩ =
      .invalid ("Game completed too quickly to be human") :=
  stats_too_quick_rejection.1 ⟨10, 0.85, 0.95, 15, 500⟩
    (by norm_num [statsInRange]) (by norm_num) (by norm_num)

/-- C10: a click record whose seven numeric fields (and the hit flag) all
hold the boolean true passes structural validation: the per-field type
check accepts booleans and the coerced value 1 passes every range
comparison. -/
theorem click_log_accepts_all_boolean_fields :
    validateClickLog allBoolClickLog = .valid := by
  norm_num [validateClickLog, allBoolClickLog, JSVal.isNumberOrBoolean, JSVal.toNumber]

/-- C2: the consistency validator accepts exactly when the four summary/log
relationships hold, and violating exactly one of them yields the
corresponding documented rejection message. -/
theorem consistency_characterization (stats : GameStats) (logs : List ClickLog) :
    (validateGameConsistency stats logs = .valid ↔
      hitCountOk stats logs ∧ missCountOk logs ∧
        durationOk stats logs ∧ accuracyOk stats logs) ∧
    (¬ hitCountOk stats logs →
      validateGameConsistency stats logs =
        .invalid ("Hit count mismatch between stats and logs")) ∧
    (hitCountOk stats logs → ¬ missCountOk logs →
      validateGameConsistency stats logs =
        .invalid ("Too many misses in click logs")) ∧
    (hitCountOk stats logs → missCountOk logs → ¬ durationOk stats logs →
      validateGameConsistency stats logs =
        .invalid ("Duration mismatch between stats and logs")) ∧
    (hitCountOk stats logs → missCountOk logs → durationOk stats logs →
      ¬ accuracyOk stats logs →
      validateGameConsistency stats logs =
        .invalid ("Average accuracy mismatch")) := by
  have e3 : (logs.length > 0 ∧ |maxElapsed logs - stats.durationMs| > 5000) ↔
      ¬ durationOk stats logs := by
    rw [durationOk]
    push_neg
    rfl
  have e4 : ((hitLogs logs).length > 0 ∧
      |meanHitAccuracy logs - stats.avgAccuracy| > 0.05) ↔ ¬ accuracyOk stats logs := by
    rw [accuracyOk]
    push_neg
    rfl
  rw [validateGameConsistency]
  split_ifs with h1 h2 h3 h4
  · exact ⟨iff_of_false (by simp) (fun hc => h1 hc.1),
      fun _ => rfl,
      fun hc _ => absurd hc h1,
      fun hc _ _ => absurd hc h1,
      fun hc _ _ _ => absurd hc h1⟩
  · have hm : ¬ missCountOk logs := not_le.mpr h2
    exact ⟨iff_of_false (by simp) (fun hc => hm hc.2.1),
      fun hn => absurd (not_not.mp h1) hn,
      fun _ _ => rfl,
      fun _ hmk _ => absurd hmk hm,
      fun _ hmk _ _ => absurd hmk hm⟩
  · have hm : missCountOk logs := not_lt.mp h2
    have hdu : ¬ durationOk stats logs := e3.mp h3
    exact ⟨iff_of_false (by simp) (fun hc => hdu hc.2.2.1),
      fun hn => absurd (not_not.mp h1) hn,
      fun _ hmk => absurd hm hmk,
      fun _ _ _ => rfl,
      fun _ _ hdk _ => absurd hdk hdu⟩
  · have hm : missCountOk logs := not_lt.mp h2
    have hd : durationOk stats logs := not_not.mp (mt e3.mpr h3)
    have hac : ¬ accuracyOk stats logs := e4.mp h4
    exact ⟨iff_of_false (by simp) (fun hc => hac hc.2.2.2),
      fun hn => absurd (not_not.mp h1) hn,
      fun _ hmk => absurd hm hmk,
      fun _ _ hdk => absurd hd hdk,
      fun _ _ _ _ => rfl⟩
  · have hm : missCountOk logs := not_lt.mp h2
    have hd : durationOk stats logs := not_not.mp (mt e3.mpr h3)
    have ha : accuracyOk stats logs := not_not.mp (mt e4.mpr h4)
    exact ⟨iff_of_true rfl ⟨not_not.mp h1, hm, hd, ha⟩,
      fun hn => absurd (not_not.mp h1) hn,
      fun _ hmk => absurd hm hmk,
      fun _ _ hdk => absurd hd hdk,
      fun _ _ _ hak => absurd ha hak⟩

/-- Witness for C2: the end-to-end scenario log with totalHits mutated to
5 fails with the hit-count message. -/
theorem consistency_characterization_witness :
    validateGameConsistency ⟨5, 0.85, 0.95, 18, 2000⟩ demoLogs =
      .invalid ("Hit count mismatch between stats and logs") :=
  (consistency_characterization ⟨5, 0.85, 0.95, 18, 2000⟩ demoLogs).2.1
    (by norm_num [hitCountOk, hitLogs, demoLogs, demoHit])

/-- C3: the speed score is 0 for totalHits = 0, exactly 100 once the
average time per hit is at or below the 0.1 s ceiling, otherwise
100·e^(−avgTimePerHit/3.5) rounded to one decimal and floored at 0; it is
non-increasing in the average time per hit past the ceiling, and
calculateSpeedScore(1000, 10) = 100. -/
theorem speed_score_characterization :
    (∀ d : ℚ, calculateSpeedScore d 0 = 0) ∧
    (∀ d h : ℚ, h ≠ 0 → (d : ℝ) / (h : ℝ) / 1000 ≤ 0.1 →
      calculateSpeedScore d h = 100) ∧
    (∀ d h : ℚ, h ≠ 0 → 0.1 < (d : ℝ) / (h : ℝ) / 1000 →
      calculateSpeedScore d h =
        max 0 (roundTo1 (100 * Real.exp (-((d : ℝ) / (h : ℝ) / 1000 / 3.5))))) ∧
    (∀ t₁ t₂ : ℝ, 0.1 < t₁ → t₁ ≤ t₂ → speedScoreOfAvg t₂ ≤ speedScoreOfAvg t₁) ∧
    calculateSpeedScore 1000 10 = 100 := by
  refine ⟨fun d => by rw [calculateSpeedScore, if_pos rfl], ?_, ?_, ?_, ?_⟩
  · intro d h hh hle
    rw [calculateSpeedScore, if_neg hh, speedScoreOfAvg, if_pos hle]
  · intro d h hh hgt
    rw [calculateSpeedScore, if_neg hh, speedScoreOfAvg, if_neg (not_le.mpr hgt)]
  · intro t₁ t₂ h1 h12
    rw [speedScoreOfAvg, speedScoreOfAvg,
      if_neg (not_le.mpr h1), if_neg (not_le.mpr (lt_of_lt_of_le h1 h12))]
    have hexp : Real.exp (-(t₂ / 3.5)) ≤ Real.exp (-(t₁ / 3.5)) :=
      Real.exp_le_exp.mpr (neg_le_neg
        ((div_le_div_iff_of_pos_right (by norm_num : (0 : ℝ) < 3.5)).mpr h12))
    have hround : round (100 * Real.exp (-(t₂ / 3.5)) * 10) ≤
        round (100 * Real.exp (-(t₁ / 3.5)) * 10) :=
      round_eq (100 * Real.exp (-(t₂ / 3.5)) * 10) ▸
        round_eq (100 * Real.exp (-(t₁ / 3.5)) * 10) ▸
        Int.floor_mono (by linarith)
    have hcast : ((round (100 * Real.exp (-(t₂ / 3.5)) * 10) : ℤ) : ℝ) ≤
        ((round (100 * Real.exp (-(t₁ / 3.5)) * 10) : ℤ) : ℝ) := by
      exact_mod_cast hround
    exact max_le_max le_rfl (by rw [roundTo1, roundTo1]; linarith)
  · rw [calculateSpeedScore, if_neg (by norm_num : (10 : ℚ) ≠ 0), speedScoreOfAvg,
      if_pos (by push_cast; norm_num)]

/-- Witness for C3 at durationMs = 1000, totalHits = 10, which sits on
the 0.1 s ceiling. -/
theorem speed_score_characterization_witness :
    calculateSpeedScore 1000 10 = 100 :=
  speed_score_characterization.2.1 1000 10 (by norm_num) (by push_cast; norm_num)

/-- The end-to-end scenario submission passes every validation stage and
persists `demoRecord`. -/
theorem submitRun_demo :
    submitRun (some "tester") demoStats demoLogs (some ["sharpshooter"]) "ip" "ua" =
      .ok demoRecord := by
  have h1 : validateUsername (some "tester") = .valid := by decide
  have h2 : validateGameStats demoStats = .valid := by
    norm_num [validateGameStats, demoStats]
  have hc1 : validateClickLog (demoHit 1000 0.86).toRaw = .valid := by
    norm_num [validateClickLog, demoHit, ClickLog.toRaw, JSVal.isNumberOrBoolean,
      JSVal.toNumber]
  have hc2 : validateClickLog (demoHit 2000 0.84).toRaw = .valid := by
    norm_num [validateClickLog, demoHit, ClickLog.toRaw, JSVal.isNumberOrBoolean,
      JSVal.toNumber]
  have h3 : firstClickLogError demoLogs = none := by
    simp only [demoLogs, firstClickLogError, hc1, hc2]
  have h4 : validateGameConsistency demoStats demoLogs = .valid := by
    norm_num [validateGameConsistency, demoStats, demoLogs, demoHit, hitLogs,
      missLogs, maxElapsed, meanHitAccuracy, logAccuracy]
  have h5 : validateBadges ["sharpshooter"] = .valid := by decide
  rw [submitRun, h1, h2, h3, h4, h5]
  rfl

/-- C1 is false on the code: the end-to-end scenario submitted with
client badges `[sharpshooter]` is accepted, the persisted badge list is
the client's list verbatim, and it differs from the badge set recomputed
from the run's click records (whose avgAccuracy 0.85 does not satisfy the
sharpshooter predicate). -/
theorem stored_badges_not_recomputed_counterexample :
    ∃ r : RunRecord,
      submitRun (some "tester") demoStats demoLogs (some ["sharpshooter"]) "ip" "ua" =
        .ok r ∧
      r.badges = ["sharpshooter"] ∧
      {b | b ∈ r.badges} ≠ determineBadgesSet (runBadgeStats demoStats demoLogs) := by
  refine ⟨demoRecord, submitRun_demo, rfl, ?_⟩
  intro heq
  have hmem : "sharpshooter" ∈ determineBadgesSet (runBadgeStats demoStats demoLogs) := by
    rw [← heq]
    simp [demoRecord]
  have hcrit : badgeCriterion (runBadgeStats demoStats demoLogs) "sharpshooter" := hmem.2
  rw [badgeCriterion] at hcrit
  norm_num [runBadgeStats, demoStats] at hcrit

/-- C1 amended: for every accepted submission the persisted speed and
performance scores are recomputed server-side from the client-submitted
summary fields (durationMs, totalHits, avgAccuracy) — never from any
client-submitted score, as none is accepted — while the persisted badge
list is exactly the client-submitted badge list (whitelist-validated
only), not recomputed from the click log. -/
theorem stored_run_derived_fields (u : Option String) (stats : GameStats)
    (logs : List ClickLog) (badges : Option (List String)) (ih ua : String)
    (r : RunRecord) (hok : submitRun u stats logs badges ih ua = .ok r) :
    r.speed_score = calculateSpeedScore stats.durationMs stats.totalHits ∧
    r.performance_score = calculatePerformanceScore stats.avgAccuracy stats.totalHits ∧
    r.badges = badges.getD [] := by
  rw [submitRun.eq_def] at hok
  repeat' split at hok
  all_goals injection hok
  all_goals subst r
  all_goals exact ⟨rfl, rfl, rfl⟩

/-- Witness for the amended C1 at the accepted end-to-end scenario. -/
theorem stored_run_derived_fields_witness :
    demoRecord.speed_score = calculateSpeedScore demoStats.durationMs demoStats.totalHits ∧
    demoRecord.performance_score =
      calculatePerformanceScore demoStats.avgAccuracy demoStats.totalHits ∧
    demoRecord.badges = (some ["sharpshooter"]).getD [] :=
  stored_run_derived_fields (some "tester") demoStats demoLogs
    (some ["sharpshooter"]) "ip" "ua" demoRecord submitRun_demo

/-- C7: the percentile function itself returns 100 on a store with no
human runs, but the submission flow inserts the run before querying the
percentile, so the first submission into an empty store receives
percentile 0 (its own row makes totalCount 1 and lowerCount 0), not the
claimed 100. -/
theorem first_submission_percentile_is_zero :
    ∃ p : SubmitResponse × List StoredRun,
      submitFlow [] 1 2000 (some "tester") demoStats demoLogs
        (some ["sharpshooter"]) "ip" "ua" = .ok p ∧
      p.1.speedPercentile = 0 ∧ p.1.performancePercentile = 0 ∧
      (∀ (score : ℝ) (m : Metric), calculatePercentile [] score m = 100) := by
  have hself : ∀ (row : StoredRun) (m : Metric), row.run.is_ai = false →
      calculatePercentile [row] (metricScore m row) m = 0 := by
    intro row m hh
    simp [calculatePercentile, List.filter, hh, lt_self_iff_false, round_eq]
    norm_num
  have hempty : ∀ (score : ℝ) (m : Metric), calculatePercentile [] score m = 100 := by
    intro score m
    simp [calculatePercentile, List.filter]
  refine ⟨_, by rw [submitFlow.eq_def, submitRun_demo], ?_, ?_, hempty⟩
  · exact hself ⟨1, demoRecord, 2000⟩ .speed rfl
  · exact hself ⟨1, demoRecord, 2000⟩ .performance rfl

/-- Folding the comparison-record update over rows none of which carries
the key k leaves the accumulated record's value at k unchanged. -/
theorem getAIComparisons_foldl_skip (sp : ℝ) (pp : ℚ) (l : List StoredRun)
    (acc : String → Option (ℤ × ℤ)) (k : String)
    (hk : ∀ r ∈ l, aiRowKey r ≠ k) :
    (l.foldl (fun acc r k => if k = aiRowKey r then some (aiDeltas sp pp r)
      else acc k) acc) k = acc k := by
  induction l generalizing acc with
  | nil => rfl
  | cons r t ih =>
    rw [List.foldl_cons, ih _ (fun r' hr' => hk r' (List.mem_cons_of_mem r hr'))]
    exact if_neg (fun he => hk r (List.mem_cons_self r t) he.symm)

/-- C8 is false as stated: for the stored AI row whose model name is
GPT-4, the comparison record holds the deltas under the key gpt_4
(non-alphanumerics replaced by underscores), while under the stripped key
gpt4 named by the claim it holds nothing. -/
theorem ai_comparison_key_counterexample :
    claimStripKey "GPT-4" = "gpt4" ∧
    getAIComparisons aiStore 0 0 (claimStripKey "GPT-4") = none ∧
    getAIComparisons aiStore 0 0 "gpt_4" = some (0, 0) := by
  have hrows : aiRows aiStore = [⟨7, gptRecord, 0⟩] := rfl
  have hkey : aiRowKey ⟨7, gptRecord, 0⟩ = "gpt_4" := rfl
  refine ⟨rfl, ?_, ?_⟩
  · rw [getAIComparisons, hrows, List.foldl_cons, List.foldl_nil]
    show (if claimStripKey "GPT-4" = aiRowKey ⟨7, gptRecord, 0⟩ then
      some (aiDeltas 0 0 ⟨7, gptRecord, 0⟩) else none) = none
    rw [hkey]
    exact if_neg (by decide)
  · rw [getAIComparisons, hrows, List.foldl_cons, List.foldl_nil]
    show (if "gpt_4" = aiRowKey ⟨7, gptRecord, 0⟩ then
      some (aiDeltas 0 0 ⟨7, gptRecord, 0⟩) else none) = some (0, 0)
    rw [hkey, if_pos rfl, aiDeltas]
    norm_num [gptRecord]

/-- C8 amended: the comparison keys are derived by lowercasing the model
name and replacing each non-alphanumeric character with an underscore
(not by stripping); provided the normalized keys of the AI rows are
pairwise distinct (collisions would let a later row overwrite an earlier
one), every AI benchmark row's key maps to the rounded score deltas
against the submitting run. -/
theorem ai_comparison_deltas (store : List StoredRun) (sp : ℝ) (pp : ℚ)
    (hnd : ((aiRows store).map aiRowKey).Nodup)
    (r : StoredRun) (hr : r ∈ aiRows store) (m : String)
    (hm : r.run.ai_model = some m) :
    getAIComparisons store sp pp (normalizeModelKey m) =
      some (round (sp - r.run.speed_score),
        round (pp - r.run.performance_score)) := by
  obtain ⟨s, t, hst⟩ := List.append_of_mem hr
  have hkey : aiRowKey r = normalizeModelKey m := by rw [aiRowKey, hm, Option.getD_some]
  have hnotin : ∀ r' ∈ t, aiRowKey r' ≠ normalizeModelKey m := by
    intro r' hr' he
    rw [hst, List.map_append, List.map_cons] at hnd
    have hcons := (List.nodup_append.mp hnd).2.1
    rw [List.nodup_cons] at hcons
    exact hcons.1 (by
      rw [hkey, ← he]
      exact List.mem_map_of_mem aiRowKey hr')
  rw [getAIComparisons, hst, List.foldl_append, List.foldl_cons,
    getAIComparisons_foldl_skip sp pp t _ _ hnotin]
  show (if normalizeModelKey m = aiRowKey r then some (aiDeltas sp pp r)
    else _) = _
  rw [if_pos hkey.symm, aiDeltas]

/-- Witness for the amended C8 at the single-row AI store. -/
theorem ai_comparison_deltas_witness :
    getAIComparisons aiStore 0 0 (normalizeModelKey "GPT-4") =
      some (round ((0 : ℝ) - gptRecord.speed_score),
        round ((0 : ℚ) - gptRecord.performance_score)) :=
  ai_comparison_deltas aiStore 0 0 (by decide) ⟨7, gptRecord, 0⟩
    (List.mem_singleton.mpr rfl) "GPT-4" rfl

/-- C9: a username patch on an existing run is rejected with the
documented message when the run is older than 24 hours; when it succeeds
the run was within the window and only the username field of the matching
stored run is mutated — ids, creation times and every other record field
of every stored run are unchanged. -/
theorem username_patch_window_and_frame (store : List StoredRun) (runId : ℤ)
    (u : Option String) (now : ℚ) (row : StoredRun)
    (hu : validateUsername u = .valid)
    (hfind : store.find? (fun r => r.id == runId) = some row) :
    ((now - row.created_at) / (1000 * 60 * 60) > 24 →
      patchUsername store runId u now =
        (.failure ("Run is too old to update username"), store)) ∧
    (∀ pid pu pprev store',
      patchUsername store runId u now = (.success pid pu pprev, store') →
      (now - row.created_at) / (1000 * 60 * 60) ≤ 24 ∧
      store'.length = store.length ∧
      ∀ i (hi : i < store.length) (hi' : i < store'.length),
        (store'.get ⟨i, hi'⟩).id = (store.get ⟨i, hi⟩).id ∧
        (store'.get ⟨i, hi'⟩).created_at = (store.get ⟨i, hi⟩).created_at ∧
        (store'.get ⟨i, hi'⟩).run =
          { (store.get ⟨i, hi⟩).run with
              username := (store'.get ⟨i, hi'⟩).run.username } ∧
        ((store.get ⟨i, hi⟩).id ≠ runId →
          (store'.get ⟨i, hi'⟩).run.username = (store.get ⟨i, hi⟩).run.username) ∧
        ((store.get ⟨i, hi⟩).id = runId →
          (store'.get ⟨i, hi'⟩).run.username = jsStringOrNull u)) := by
  constructor
  · intro hold
    rw [patchUsername.eq_def]
    simp only [hu, hfind]
    rw [if_pos hold]
  · intro pid pu pprev store' hsucc
    rw [patchUsername.eq_def] at hsucc
    simp only [hu, hfind] at hsucc
    by_cases hold : (now - row.created_at) / (1000 * 60 * 60) > 24
    · rw [if_pos hold] at hsucc
      exact absurd hsucc (by simp)
    · rw [if_neg hold] at hsucc
      have hstore : store' = store.map (fun r => if r.id = runId then
          { r with run := { r.run with username := jsStringOrNull u } } else r) := by
        have hsnd := congrArg Prod.snd hsucc
        simpa using hsnd.symm
      subst hstore
      refine ⟨not_lt.mp hold, List.length_map _ _, ?_⟩
      intro i hi hi'
      simp only [List.get_eq_getElem, List.getElem_map]
      by_cases hid : store[i].id = runId <;> simp [hid]

/-- Witness for C9: patching the run created at time 0 a hundred hours
later is rejected as too old, leaving the store unchanged. -/
theorem username_patch_window_and_frame_witness :
    patchUsername patchStore 1 (some "bob") 360000000 =
      (.failure ("Run is too old to update username"), patchStore) :=
  (username_patch_window_and_frame patchStore 1 (some "bob") 360000000
    ⟨1, demoRecord, 0⟩ (by decide) rfl).1 (by norm_num)

end ClickAccuracy
